import Mathlib

/-!
Shallow embedding of the workout note-taking frontend core:
the Session Manager (`frontend/src/lib/auth.ts`), the API Client
(`frontend/src/lib/api.ts`) and the message-list handlers of the home page
(`frontend/src/app/page.tsx`).

Asynchronous effects are embedded by explicit oracles: the outcome of the
identity provider's callbacks and of each network round trip is passed in as
an argument, and the embedded function computes the value the TypeScript
function would resolve (or reject) with, together with the list of network
requests it issued.
-/

namespace Workout

/-! ## JSON values

A JSON value as produced by `JSON.parse` / consumed by `JSON.stringify`.
`JSON.stringify` is modelled by carrying the value itself in the request
body; `jsTruthy` mirrors JavaScript truthiness of such a value, used by
`body ? JSON.stringify(body) : undefined`. -/

inductive Json where
  | str (s : String)
  | num (n : Int)
  | bool (b : Bool)
  | arr (elems : List Json)
  | obj (fields : List (String × Json))

/-- JavaScript truthiness of a parsed JSON value: `""`, `0` and `false` are
falsy; arrays and objects are truthy. -/
def jsTruthy : Json → Bool
  | .str s => s != ""
  | .num n => n != 0
  | .bool b => b
  | .arr _ => true
  | .obj _ => true

mutual

/-- Embeds `String(v)` on a parsed JSON value, as used by `new Error(v)` to
coerce its message: strings pass through, numbers and booleans print, arrays
join their stringified elements with "," (so `String([])` is the empty
string), and plain objects print as "[object Object]". -/
def jsToString : Json → String
  | .str s => s
  | .num n => toString n
  | .bool b => if b then "true" else "false"
  | .arr elems => jsToStringList elems
  | .obj _ => "[object Object]"

/-- Embeds `Array.prototype.toString` (join with ","), the array case of
`jsToString`. -/
def jsToStringList : List Json → String
  | [] => ""
  | [x] => jsToString x
  | x :: y :: xs => jsToString x ++ "," ++ jsToStringList (y :: xs)

end

/-- Embeds `error.detail` when `error` is a parsed JSON value: the value of
the `detail` field of a JSON object; a missing field or a non-object reads
as `undefined` (`none`). -/
def detailOf : Json → Option Json
  | .obj fields =>
    match fields.find? (fun p => p.1 == "detail") with
    | some (_, v) => some v
    | none => none
  | _ => none

/-! ## Session Manager (`frontend/src/lib/auth.ts`)

The Cognito user pool's client-side cache is modelled as `ProviderState`:
whether `userPool.getCurrentUser()` yields a cached user, and the outcome
the SDK's `cognitoUser.getSession` callback would deliver (an error flag
and an optional session whose `isValid()` result is recorded). -/

/-- The token triple `AuthTokens` of `auth.ts`. -/
structure AuthTokens where
  idToken : String
  accessToken : String
  refreshToken : String
  deriving DecidableEq, Repr

/-- A `CognitoUserSession` as observed through the accessors `auth.ts` uses:
the three JWT strings and the result of `session.isValid()`. -/
structure CognitoSession where
  idToken : String
  accessToken : String
  refreshToken : String
  isValid : Bool
  deriving DecidableEq, Repr

/-- Outcome of the `cognitoUser.getSession((err, session) => ...)` callback:
`err` records whether the error argument was truthy, `session` the session
argument (`none` for `null`). -/
structure GetSessionOutcome where
  err : Bool
  session : Option CognitoSession
  deriving DecidableEq, Repr

/-- The provider's client-side cache: `currentUser` is the user
`userPool.getCurrentUser()` returns (by username), `getSessionOutcome` what
its `getSession` callback would deliver. -/
structure ProviderState where
  currentUser : Option String
  getSessionOutcome : GetSessionOutcome
  deriving DecidableEq, Repr

/-- Embeds `getCurrentSession` of `auth.ts`: resolves `null` when there is no cached
user, when `getSession` reports an error or a `null` session, or when
`session.isValid()` is false; otherwise resolves the three tokens. -/
def getCurrentSession (st : ProviderState) : Option AuthTokens :=
  match st.currentUser with
  | none => none
  | some _ =>
    if st.getSessionOutcome.err then none
    else
      match st.getSessionOutcome.session with
      | none => none
      | some s =>
        if s.isValid then
          some { idToken := s.idToken, accessToken := s.accessToken,
                 refreshToken := s.refreshToken }
        else none

/-- Embeds `getIdToken` of `auth.ts`: `session?.idToken || null`, so an absent
session or an empty-string token yields `null`. -/
def getIdToken (st : ProviderState) : Option String :=
  match getCurrentSession st with
  | none => none
  | some t => if t.idToken = "" then none else some t.idToken

/-- Embeds `signOut` of `auth.ts`: if `userPool.getCurrentUser()` is non-null, clear
its local session cache (after which `getCurrentUser` returns null);
otherwise do nothing. The TypeScript function resolves `void` on every path
and has no reject path, which the total return type reflects. -/
def signOut (st : ProviderState) : ProviderState :=
  match st.currentUser with
  | none => st
  | some _ => { st with currentUser := none }

/-! ## API Client (`frontend/src/lib/api.ts`) -/

/-- Embeds `API_BASE_URL`: `process.env.NEXT_PUBLIC_API_URL || "http://localhost:8000"`,
modelled at its default. -/
def API_BASE_URL : String := "http://localhost:8000"

/-- The `RequestOptions` interface of `api.ts`, with the defaults `request`
destructures (`method = "GET"`, `requireAuth = true`). -/
structure RequestOptions where
  method : String := "GET"
  body : Option Json := none
  requireAuth : Bool := true

/-- An outbound `fetch` call: URL, method, header list, and the request body
(the JSON value passed to `JSON.stringify`, `none` for `undefined`). -/
structure HttpRequest where
  url : String
  method : String
  headers : List (String × String)
  body : Option Json

/-- A `fetch` response as `request` observes it: the status code and the
result of `response.json()` (`none` when parsing the body rejects). -/
structure HttpResponse where
  status : Nat
  jsonBody : Option Json

/-- Embeds `response.ok`: status in the range 200–299. -/
def respOk (r : HttpResponse) : Bool := decide (200 ≤ r.status ∧ r.status ≤ 299)

/-- The errors `request` can throw: `new Error("Not authenticated")` before
any fetch, the normalized `new Error(error.detail || "Request failed")` on a
non-ok response, and the `SyntaxError` that `response.json()` rejects with
on the success path. -/
inductive ApiError where
  | notAuthenticated (msg : String)
  | requestFailed (msg : String)
  | parseError (msg : String)

/-- Embeds `err.message` of a thrown `ApiError` (each models an `Error` instance). -/
def ApiError.message : ApiError → String
  | .notAuthenticated m => m
  | .requestFailed m => m
  | .parseError m => m

/-- The message of the normalized non-ok error:
`new Error(error.detail || "Request failed")` where `error` is
`await response.json().catch(() => ({detail: "Request failed"}))`.
A parse failure substitutes `{detail: "Request failed"}`; `||` keeps any
truthy `detail` value — which `new Error` coerces with `String(...)` — and
falls back to `"Request failed"` only when `detail` is missing or falsy
(empty string, 0, false). -/
def errorDetailMessage (body : Option Json) : String :=
  match body with
  | none => "Request failed"
  | some j =>
    match detailOf j with
    | some v => if jsTruthy v then jsToString v else "Request failed"
    | none => "Request failed"

/-- The header construction of `request`: `Content-Type: application/json`
always; when `requireAuth`, `await getIdToken()` must yield a token, which is
attached as `Authorization: Bearer <token>`, else
`new Error("Not authenticated")` is thrown before any fetch. -/
def buildHeaders (opts : RequestOptions) (st : ProviderState) :
    Except ApiError (List (String × String)) :=
  let contentType := ("Content-Type", "application/json")
  if opts.requireAuth then
    match getIdToken st with
    | none => .error (.notAuthenticated "Not authenticated")
    | some token => .ok [contentType, ("Authorization", "Bearer " ++ token)]
  else .ok [contentType]

/-- The response handling of `request`: on `!response.ok` throw the
normalized error; on an ok response return `response.json()`, whose rejection
(non-JSON body) propagates as a `SyntaxError`. -/
def handleResponse (resp : HttpResponse) : Except ApiError Json :=
  if respOk resp then
    match resp.jsonBody with
    | some j => .ok j
    | none => .error (.parseError "Unexpected end of JSON input")
  else .error (.requestFailed (errorDetailMessage resp.jsonBody))

/-- Embeds `request` of `api.ts`. The network is an oracle `net` mapping the issued
request to its response; the result pairs the value `request` resolves with
(or the error it throws) with the list of fetch calls it issued. -/
def request (endpoint : String) (opts : RequestOptions) (st : ProviderState)
    (net : HttpRequest → HttpResponse) : Except ApiError Json × List HttpRequest :=
  match buildHeaders opts st with
  | .error e => (.error e, [])
  | .ok headers =>
    let req : HttpRequest :=
      { url := API_BASE_URL ++ endpoint
        method := opts.method
        headers := headers
        body := match opts.body with
                | some b => if jsTruthy b then some b else none
                | none => none }
    (handleResponse (net req), [req])

/-- Embeds `getMe` of `api.ts`: `request("/auth/me")`. -/
def getMe (st : ProviderState) (net : HttpRequest → HttpResponse) :
    Except ApiError Json × List HttpRequest :=
  request "/auth/me" {} st net

/-- Embeds `getMessages` of `api.ts`: `request("/messages")`. -/
def getMessages (st : ProviderState) (net : HttpRequest → HttpResponse) :
    Except ApiError Json × List HttpRequest :=
  request "/messages" {} st net

/-- Embeds `createMessage` of `api.ts`: `request("/messages", {method: "POST", body: {message}})`. -/
def createMessage (message : String) (st : ProviderState)
    (net : HttpRequest → HttpResponse) : Except ApiError Json × List HttpRequest :=
  request "/messages" { method := "POST", body := some (.obj [("message", .str message)]) } st net

/-- Embeds `healthCheck` of `api.ts`: `request("/", {requireAuth: false})`. -/
def healthCheck (st : ProviderState) (net : HttpRequest → HttpResponse) :
    Except ApiError Json × List HttpRequest :=
  request "/" { requireAuth := false } st net

/-- Modelled from the spec: `deleteMessage(id)` is imported by
`frontend/src/app/page.tsx` from `@/lib/api` and listed by the spec among the
exposed domain operations, but its definition is missing from the `api.ts`
source. Per the spec's HTTP surface it sends an authenticated
`DELETE /messages/{id}` with no body. -/
def deleteMessage (id : Int) (st : ProviderState)
    (net : HttpRequest → HttpResponse) : Except ApiError Json × List HttpRequest :=
  request ("/messages/" ++ toString id) { method := "DELETE" } st net

/-- The domain operations the API Client module exposes, one constructor per
exported function (the enumeration is exhaustive for the module's exports). -/
inductive ApiOp where
  | opGetMe
  | opGetMessages
  | opCreateMessage
  | opDeleteMessage
  | opHealthCheck
  deriving DecidableEq, Repr

/-- Run an exposed operation against a provider state and network oracle;
`text` feeds `createMessage`, `id` feeds `deleteMessage`. -/
def ApiOp.run (op : ApiOp) (text : String) (id : Int) (st : ProviderState)
    (net : HttpRequest → HttpResponse) : Except ApiError Json × List HttpRequest :=
  match op with
  | .opGetMe => getMe st net
  | .opGetMessages => getMessages st net
  | .opCreateMessage => createMessage text st net
  | .opDeleteMessage => deleteMessage id st net
  | .opHealthCheck => healthCheck st net

end Workout

namespace Workout

/-! ## Home page handlers (`frontend/src/app/page.tsx`)

React state is modelled as an explicit record; each handler maps the state
before the event, plus the oracle outcome of the awaited call, to the state
after the handler has run to completion (including its `finally` blocks). -/

/-- The `Message` interface of `api.ts`. -/
structure Message where
  id : Int
  message : String
  created_at : String
  deriving DecidableEq, Repr

/-- The `MessagesResponse` interface as the page consumes it at runtime:
`data.messages` may be null/undefined on the wire (the page guards with
`data.messages || []`), so it is carried as an `Option`. -/
structure MessagesResponse where
  messages : Option (List Message)
  deriving DecidableEq, Repr

/-- Embeds `text.trim()`: strip leading and trailing whitespace (modelled over the
character list so it evaluates by reduction). -/
def jsTrim (s : String) : String :=
  ⟨((s.data.dropWhile Char.isWhitespace).reverse.dropWhile Char.isWhitespace).reverse⟩

/-- The home page's React state relevant to the message-list handlers. -/
structure PageState where
  text : String
  messages : List Message
  loading : Bool
  loadingMessages : Bool
  error : Option String
  deriving DecidableEq, Repr

/-- Embeds `fetchMessages` of `page.tsx`: sets the loading flag, clears the error,
then on success stores `data.messages || []`, on failure stores the error
message; the `finally` clears the loading flag. `outcome` is what
`getMessages()` resolves or rejects with. -/
def fetchMessages (st : PageState) (outcome : Except ApiError MessagesResponse) :
    PageState :=
  match outcome with
  | .ok data =>
    { st with error := none, messages := data.messages.getD [],
              loadingMessages := false }
  | .error e =>
    { st with error := some e.message, loadingMessages := false }

/-- Embeds `handleSubmit` of `page.tsx`: returns immediately when `text.trim()` is
empty; otherwise sets loading, clears the error, awaits `createMessage(text)`
(outcome `createOutcome`), on success clears the input and runs
`fetchMessages` (outcome `fetchOutcome`), on failure stores the error
message; the `finally` clears the loading flag. The second component is the
argument `createMessage` was called with (`none` when it was never called). -/
def handleSubmit (st : PageState) (createOutcome : Except ApiError Message)
    (fetchOutcome : Except ApiError MessagesResponse) : PageState × Option String :=
  if jsTrim st.text = "" then (st, none)
  else
    let st1 := { st with loading := true, error := none }
    match createOutcome with
    | .ok _ =>
      let st2 := fetchMessages { st1 with text := "" } fetchOutcome
      ({ st2 with loading := false }, some st.text)
    | .error e =>
      ({ st1 with error := some e.message, loading := false }, some st.text)

/-- Embeds `handleDelete` of `page.tsx`: awaits `deleteMessage(id)` (outcome
`outcome`); only when it resolves does the handler filter the message with
that id out of the local list (no re-fetch); when it rejects, the error
message is stored and the list is left untouched. -/
def handleDelete (st : PageState) (id : Int) (outcome : Except ApiError Unit) :
    PageState :=
  match outcome with
  | .ok _ => { st with messages := st.messages.filter (fun m => m.id != id) }
  | .error e => { st with error := some e.message }

/-! ### Swipe gesture state -/

/-- The swipe-gesture React state: `swipeOffset` models the
`Record<number, number>` keyed by message id, `swiping` the id currently
being swiped, `startX` the `startX` ref. Offsets are in pixels. -/
structure SwipeState where
  swipeOffset : List (Int × Int)
  swiping : Option Int
  startX : Int
  deriving DecidableEq, Repr

/-- Embeds `swipeOffset[id] || 0`: a missing key reads as `undefined`, hence 0. -/
def recLookup (m : List (Int × Int)) (id : Int) : Int :=
  match m.find? (fun p => p.1 == id) with
  | some p => p.2
  | none => 0

/-- Embeds `{...prev, [id]: v}`: update the record at key `id`. -/
def recSet (m : List (Int × Int)) (id v : Int) : List (Int × Int) :=
  (id, v) :: m.filter (fun p => p.1 != id)

/-- Embeds `handleSwipeStart` of `page.tsx`. -/
def handleSwipeStart (st : SwipeState) (id clientX : Int) : SwipeState :=
  { st with startX := clientX, swiping := some id }

/-- Embeds `handleSwipeMove` of `page.tsx`: ignored unless `swiping === id`;
otherwise stores `Math.min(0, clientX - startX)` under `id`. -/
def handleSwipeMove (st : SwipeState) (id clientX : Int) : SwipeState :=
  if st.swiping ≠ some id then st
  else { st with swipeOffset := recSet st.swipeOffset id (min 0 (clientX - st.startX)) }

/-- Embeds `handleSwipeEnd` of `page.tsx`: reads `swipeOffset[id] || 0`, fires
`handleDelete(id)` (without awaiting) exactly when the offset is < -100,
then resets the offset for `id` to 0 and clears `swiping`. The Boolean
records whether the delete was triggered. -/
def handleSwipeEnd (st : SwipeState) (id : Int) : Bool × SwipeState :=
  let offset := recLookup st.swipeOffset id
  (decide (offset < -100),
   { st with swipeOffset := recSet st.swipeOffset id 0, swiping := none })

end Workout

namespace Workout

/-! ## Claims -/

/-- C1: for every call through `request` with `requireAuth` true (the
default), if the Session Manager yields no identity token (`getIdToken`
returns null), the call fails with `NotAuthenticatedError`
("Not authenticated") and no fetch is issued. -/
theorem c1_no_token_fails_without_fetch (endpoint : String) (opts : RequestOptions)
    (st : ProviderState) (net : HttpRequest → HttpResponse)
    (hAuth : opts.requireAuth = true) (hTok : getIdToken st = none) :
    request endpoint opts st net =
      (.error (.notAuthenticated "Not authenticated"), []) := by
  simp [request, buildHeaders, hAuth, hTok]

/-- Witness for C1 at the `/auth/me` endpoint, default options, an empty
provider cache and a network oracle that would answer 200. -/
theorem c1_no_token_fails_without_fetch_witness :
    request "/auth/me" {} { currentUser := none, getSessionOutcome := ⟨false, none⟩ }
        (fun _ => { status := 200, jsonBody := none }) =
      (.error (.notAuthenticated "Not authenticated"), []) :=
  c1_no_token_fails_without_fetch "/auth/me" {}
    { currentUser := none, getSessionOutcome := ⟨false, none⟩ }
    (fun _ => { status := 200, jsonBody := none }) rfl rfl

/-- C4: `getCurrentSession` returns either absent or a bundle of all three
tokens taken from a session whose `isValid()` holds (and no error was
reported); and it is absent whenever there is no cached user, the provider
reports an error, a null session, or an invalid session. -/
theorem c4_session_all_or_nothing (st : ProviderState) :
    (∀ t, getCurrentSession st = some t →
      ∃ s, st.getSessionOutcome.session = some s ∧ s.isValid = true ∧
        st.getSessionOutcome.err = false ∧
        t = { idToken := s.idToken, accessToken := s.accessToken,
              refreshToken := s.refreshToken }) ∧
    (st.currentUser = none → getCurrentSession st = none) ∧
    (st.getSessionOutcome.err = true → getCurrentSession st = none) ∧
    (st.getSessionOutcome.session = none → getCurrentSession st = none) ∧
    (∀ s, st.getSessionOutcome.session = some s → s.isValid = false →
      getCurrentSession st = none) := by
  obtain ⟨cu, err, sess⟩ := st
  cases cu <;> cases err <;> rcases sess with _ | ⟨i, a, r, _ | _⟩ <;>
    simp_all [getCurrentSession]

/-- Witness for C4 at a cache holding the user `alice` with a valid session. -/
theorem c4_session_all_or_nothing_witness :
    ∃ s, (GetSessionOutcome.mk false (some ⟨"i", "a", "r", true⟩)).session = some s ∧
      s.isValid = true ∧
      (GetSessionOutcome.mk false (some ⟨"i", "a", "r", true⟩)).err = false ∧
      ({ idToken := "i", accessToken := "a", refreshToken := "r" } : AuthTokens) =
        { idToken := s.idToken, accessToken := s.accessToken,
          refreshToken := s.refreshToken } :=
  (c4_session_all_or_nothing
      { currentUser := some "alice",
        getSessionOutcome := ⟨false, some ⟨"i", "a", "r", true⟩⟩ }).1
    { idToken := "i", accessToken := "a", refreshToken := "r" } rfl

/-- C5: `signOut` is idempotent: with no cached user it is a no-op, applying
it twice equals applying it once, and after each application
`getCurrentSession` is absent. It produces no error on any input (its
return type has no error case). -/
theorem c5_signOut_idempotent (st : ProviderState) :
    (st.currentUser = none → signOut st = st) ∧
    signOut (signOut st) = signOut st ∧
    getCurrentSession (signOut st) = none ∧
    getCurrentSession (signOut (signOut st)) = none := by
  obtain ⟨cu, o⟩ := st
  cases cu <;> simp [signOut, getCurrentSession]

/-- Witness for C5 at an empty provider cache. -/
theorem c5_signOut_idempotent_witness :
    signOut { currentUser := none, getSessionOutcome := ⟨false, none⟩ } =
      { currentUser := none, getSessionOutcome := ⟨false, none⟩ } ∧
    getCurrentSession
      (signOut { currentUser := none, getSessionOutcome := ⟨false, none⟩ }) = none :=
  ⟨(c5_signOut_idempotent { currentUser := none, getSessionOutcome := ⟨false, none⟩ }).1 rfl,
   (c5_signOut_idempotent { currentUser := none, getSessionOutcome := ⟨false, none⟩ }).2.2.1⟩

end Workout

namespace Workout

/-- C2: the API Client exposes exactly the operations enumerated by `ApiOp`
(`getMe`, `getMessages`, `createMessage`, `deleteMessage`, `healthCheck`);
with no identity token available, every operation other than `healthCheck`
fails with `NotAuthenticatedError` and issues no fetch, while `healthCheck`
still issues its single fetch (it does not require authentication). -/
theorem c2_healthCheck_only_unauthenticated (op : ApiOp) (text : String)
    (id : Int) (st : ProviderState) (net : HttpRequest → HttpResponse)
    (hTok : getIdToken st = none) :
    (op ≠ .opHealthCheck →
      ApiOp.run op text id st net =
        (.error (.notAuthenticated "Not authenticated"), [])) ∧
    (op = .opHealthCheck → (ApiOp.run op text id st net).2.length = 1) := by
  cases op <;>
    simp_all [ApiOp.run, getMe, getMessages, createMessage, deleteMessage,
      healthCheck, request, buildHeaders]

/-- Witness for C2: `getMe` versus `healthCheck` at an empty provider cache. -/
theorem c2_healthCheck_only_unauthenticated_witness :
    ApiOp.run .opGetMe "hi" 1 { currentUser := none, getSessionOutcome := ⟨false, none⟩ }
        (fun _ => { status := 200, jsonBody := none }) =
      (.error (.notAuthenticated "Not authenticated"), []) ∧
    (ApiOp.run .opHealthCheck "hi" 1
        { currentUser := none, getSessionOutcome := ⟨false, none⟩ }
        (fun _ => { status := 200, jsonBody := none })).2.length = 1 :=
  ⟨(c2_healthCheck_only_unauthenticated .opGetMe "hi" 1
      { currentUser := none, getSessionOutcome := ⟨false, none⟩ }
      (fun _ => { status := 200, jsonBody := none }) rfl).1 (by decide),
   (c2_healthCheck_only_unauthenticated .opHealthCheck "hi" 1
      { currentUser := none, getSessionOutcome := ⟨false, none⟩ }
      (fun _ => { status := 200, jsonBody := none }) rfl).2 rfl⟩

end Workout

namespace Workout

/-- C8: every `request` with `requireAuth` true and a present token issues a
fetch carrying `Authorization: Bearer <token>` and
`Content-Type: application/json`, with a provided (truthy) body carried as
its JSON serialization; `createMessage text` sends `POST /messages` with body
`{message: text}`, and `getMessages` sends `GET /messages` with no body. -/
theorem c8_bearer_header_and_json_body :
    (∀ endpoint opts st net tok, opts.requireAuth = true →
      getIdToken st = some tok →
      ∃ req, (request endpoint opts st net).2 = [req] ∧
        ("Authorization", "Bearer " ++ tok) ∈ req.headers ∧
        ("Content-Type", "application/json") ∈ req.headers ∧
        ∀ b, opts.body = some b → jsTruthy b = true → req.body = some b) ∧
    (∀ text st net tok, getIdToken st = some tok →
      ∃ req, (createMessage text st net).2 = [req] ∧ req.method = "POST" ∧
        req.url = API_BASE_URL ++ "/messages" ∧
        req.body = some (Json.obj [("message", Json.str text)]) ∧
        ("Authorization", "Bearer " ++ tok) ∈ req.headers) ∧
    (∀ st net tok, getIdToken st = some tok →
      ∃ req, (getMessages st net).2 = [req] ∧ req.method = "GET" ∧
        req.url = API_BASE_URL ++ "/messages" ∧ req.body = none ∧
        ("Authorization", "Bearer " ++ tok) ∈ req.headers) := by
  refine ⟨?_, ?_, ?_⟩
  · intro endpoint opts st net tok hAuth hTok
    refine ⟨{ url := API_BASE_URL ++ endpoint, method := opts.method,
              headers := [("Content-Type", "application/json"),
                          ("Authorization", "Bearer " ++ tok)],
              body := match opts.body with
                      | some b => if jsTruthy b then some b else none
                      | none => none }, ?_, ?_, ?_, ?_⟩
    · simp [request, buildHeaders, hAuth, hTok]
    · simp
    · simp
    · intro b hb ht
      simp [hb, ht]
  · intro text st net tok hTok
    refine ⟨{ url := API_BASE_URL ++ "/messages", method := "POST",
              headers := [("Content-Type", "application/json"),
                          ("Authorization", "Bearer " ++ tok)],
              body := some (Json.obj [("message", Json.str text)]) },
            ?_, rfl, rfl, rfl, ?_⟩
    · simp [createMessage, request, buildHeaders, hTok, jsTruthy]
    · simp
  · intro st net tok hTok
    refine ⟨{ url := API_BASE_URL ++ "/messages", method := "GET",
              headers := [("Content-Type", "application/json"),
                          ("Authorization", "Bearer " ++ tok)],
              body := none }, ?_, rfl, rfl, rfl, ?_⟩
    · simp [getMessages, request, buildHeaders, hTok]
    · simp

/-- Witness for C8: `createMessage "hello"` with a valid cached session. -/
theorem c8_bearer_header_and_json_body_witness :
    ∃ req, (createMessage "hello"
        { currentUser := some "u",
          getSessionOutcome := ⟨false, some ⟨"tok", "a", "r", true⟩⟩ }
        (fun _ => { status := 200, jsonBody := some (Json.obj []) })).2 = [req] ∧
      req.method = "POST" ∧ req.url = API_BASE_URL ++ "/messages" ∧
      req.body = some (Json.obj [("message", Json.str "hello")]) ∧
      ("Authorization", "Bearer " ++ "tok") ∈ req.headers :=
  c8_bearer_header_and_json_body.2.1 "hello"
    { currentUser := some "u",
      getSessionOutcome := ⟨false, some ⟨"tok", "a", "r", true⟩⟩ }
    (fun _ => { status := 200, jsonBody := some (Json.obj []) }) "tok" rfl

/-- C6 counterexample: when `deleteMessage` rejects, `handleDelete` never
removed the item — the message with the swiped id is still in the local
list, contradicting "the optimistic removal is not rolled back (the item
stays removed)". -/
theorem c6_failed_delete_keeps_item_counterexample :
    (handleDelete
        { text := "", messages := [{ id := 1, message := "hi", created_at := "d" }],
          loading := false, loadingMessages := false, error := none }
        1 (.error (.requestFailed "boom"))).messages =
      [{ id := 1, message := "hi", created_at := "d" }] := rfl

/-- C6 (amended): `handleDelete` removes the message with the given id from
the local list (by filtering, with no re-fetch) only when `deleteMessage`
resolves successfully; when the call rejects, the error message is surfaced
and the list is left unchanged — the item is never removed. -/
theorem c6_delete_removes_only_on_success (st : PageState) (id : Int)
    (e : ApiError) :
    handleDelete st id (.ok ()) =
      { st with messages := st.messages.filter (fun m => m.id != id) } ∧
    handleDelete st id (.error e) = { st with error := some e.message } :=
  ⟨rfl, rfl⟩

/-- C7: after a successful `createMessage`, `handleSubmit` clears the input
and re-fetches: the displayed list is exactly the list the server returned
from `getMessages`, regardless of the previous local list or the created
message. -/
theorem c7_refetch_after_create (st : PageState) (m : Message)
    (resp : MessagesResponse) (l : List Message)
    (hne : jsTrim st.text ≠ "") (hl : resp.messages = some l) :
    (handleSubmit st (.ok m) (.ok resp)).1.messages = l ∧
    (handleSubmit st (.ok m) (.ok resp)).1.text = "" ∧
    (handleSubmit st (.ok m) (.ok resp)).2 = some st.text := by
  simp [handleSubmit, fetchMessages, hne, hl]

/-- Witness for C7 at a submission of "hello" whose re-fetch returns one
message. -/
theorem c7_refetch_after_create_witness :
    (handleSubmit
        { text := "hello", messages := [], loading := false,
          loadingMessages := false, error := none }
        (.ok { id := 1, message := "hello", created_at := "d" })
        (.ok { messages := some [{ id := 1, message := "hello", created_at := "d" }] })).1.messages =
      [{ id := 1, message := "hello", created_at := "d" }] ∧
    (handleSubmit
        { text := "hello", messages := [], loading := false,
          loadingMessages := false, error := none }
        (.ok { id := 1, message := "hello", created_at := "d" })
        (.ok { messages := some [{ id := 1, message := "hello", created_at := "d" }] })).1.text = "" ∧
    (handleSubmit
        { text := "hello", messages := [], loading := false,
          loadingMessages := false, error := none }
        (.ok { id := 1, message := "hello", created_at := "d" })
        (.ok { messages := some [{ id := 1, message := "hello", created_at := "d" }] })).2 =
      some "hello" :=
  c7_refetch_after_create
    { text := "hello", messages := [], loading := false,
      loadingMessages := false, error := none }
    { id := 1, message := "hello", created_at := "d" }
    { messages := some [{ id := 1, message := "hello", created_at := "d" }] }
    [{ id := 1, message := "hello", created_at := "d" }] (by decide) rfl

/-- C9: releasing a swipe triggers the delete exactly when the accumulated
offset is strictly below -100 (exactly -100 does not trigger it), and the
offset for that id is reset to 0 and the swiping state cleared. -/
theorem c9_swipe_release_threshold (st : SwipeState) (id : Int) :
    ((handleSwipeEnd st id).1 = true ↔ recLookup st.swipeOffset id < -100) ∧
    (recLookup st.swipeOffset id = -100 → (handleSwipeEnd st id).1 = false) ∧
    recLookup (handleSwipeEnd st id).2.swipeOffset id = 0 ∧
    (handleSwipeEnd st id).2.swiping = none := by
  refine ⟨?_, ?_, ?_, rfl⟩
  · simp [handleSwipeEnd]
  · intro h
    simp [handleSwipeEnd, h]
  · simp [handleSwipeEnd, recLookup, recSet]

/-- Witness for C9: an offset of exactly -100 does not trigger the delete. -/
theorem c9_swipe_release_threshold_witness :
    (handleSwipeEnd { swipeOffset := [(5, -100)], swiping := some 5, startX := 0 } 5).1 =
      false :=
  (c9_swipe_release_threshold
    { swipeOffset := [(5, -100)], swiping := some 5, startX := 0 } 5).2.1 rfl

/-- C10: a submission whose text is empty after trimming leaves the page
state untouched and never calls `createMessage`. -/
theorem c10_empty_text_skips_create (st : PageState)
    (co : Except ApiError Message) (fo : Except ApiError MessagesResponse)
    (h : jsTrim st.text = "") :
    handleSubmit st co fo = (st, none) := by
  simp [handleSubmit, h]

/-- Witness for C10 at whitespace-only input. -/
theorem c10_empty_text_skips_create_witness :
    handleSubmit
        { text := "   ", messages := [], loading := false,
          loadingMessages := false, error := none }
        (.error (.requestFailed "x")) (.error (.requestFailed "y")) =
      ({ text := "   ", messages := [], loading := false,
         loadingMessages := false, error := none }, none) :=
  c10_empty_text_skips_create
    { text := "   ", messages := [], loading := false,
      loadingMessages := false, error := none }
    (.error (.requestFailed "x")) (.error (.requestFailed "y")) (by decide)

end Workout
